import Mathlib

/-!
# Verification of the nbatui data-service caching core

Shallow embedding of the caching/freshness engine of the `nbatui` data
service: the SQLite-backed durable cache (`services/cache_service.py`), the
in-memory ephemeral cache (`routers/social.py`), the token-bucket rate
limiter (`services/rate_limiter.py`), the retrying fetch client
(`services/reddit_service.py`), the social prefetch worker
(`workers/social_worker.py`) and the schedule read path
(`services/nba_service.py`).

Timestamps and token counts are modelled as rationals (seconds); the SQLite
tables are modelled as functions from their key type to an optional row;
serialized JSON payloads are kept as the values they serialize (the
`json.dumps`/`json.loads` round trip is elided).
-/

namespace NbaTui

/-- One scoreboard game record, with the fields the caching core reads.
`gameStatus`: 1 = Scheduled, 2 = Live, 3 = Final.  Optional fields model
keys that may be absent (or falsy) in the upstream dictionary. -/
structure Game where
  gameId : Option String
  gameStatus : Int
  awayTeamName : String
  homeTeamName : String
  localDate : Option String
  gameTimeUTC : String
deriving DecidableEq, Repr

/-- A SQLite table keyed by strings: each key holds at most one row. -/
abbrev Store (α : Type) := String → Option α

/-- The empty table. -/
def Store.empty {α : Type} : Store α := fun _ => none

/-- `g.get('gameStatus') == 3`: the game is Final. -/
def isFinal (g : Game) : Bool := g.gameStatus == 3

/-- `cache_games` (cache_service.py:70-96): rows of `games_cache` are
`(data, cached_at)`.  An empty list returns at once; otherwise the batch is
upserted only when every game has `gameStatus = 3`. -/
def cacheGames (date : String) (games : List Game) (now : ℚ)
    (st : Store (List Game × ℚ)) : Store (List Game × ℚ) :=
  if games.isEmpty then st
  else if games.all isFinal then Function.update st date (some (games, now))
  else st

/-- `SCHEDULE_CACHE_TTL_HOURS = 24` (cache_service.py:328), in seconds. -/
def SCHEDULE_TTL_SECONDS : ℚ := 24 * 3600

/-- `STANDINGS_CACHE_TTL_HOURS = 6` (cache_service.py:406), in seconds. -/
def STANDINGS_TTL_SECONDS : ℚ := 6 * 3600

/-- `get_cached_schedule` (cache_service.py:351-373): a row older than the
24-hour horizon (`datetime.now() - cached_at > timedelta(hours=24)`) is a
miss; otherwise the stored payload is returned. -/
def getCachedSchedule (st : Store (List Game × ℚ)) (date : String) (now : ℚ) :
    Option (List Game) :=
  match st date with
  | none => none
  | some (data, cachedAt) =>
      if now - cachedAt > SCHEDULE_TTL_SECONDS then none else some data

/-- `get_cached_schedule_fallback` (cache_service.py:383-401): returns the
stored payload regardless of age. -/
def getCachedScheduleFallback (st : Store (List Game × ℚ)) (date : String) :
    Option (List Game) :=
  (st date).map Prod.fst

/-- `cache_schedule` (cache_service.py:331-348): unconditional upsert for a
nonempty batch. -/
def cacheSchedule (date : String) (games : List Game) (now : ℚ)
    (st : Store (List Game × ℚ)) : Store (List Game × ℚ) :=
  if games.isEmpty then st else Function.update st date (some (games, now))

/-- `get_cached_standings` (cache_service.py:431-453).  The table has the
single key `'current'`, so its content is one optional `(data, cached_at)`
row; standings payloads are kept opaque (their serialized text). -/
def getCachedStandings (st : Option (String × ℚ)) (now : ℚ) : Option String :=
  match st with
  | none => none
  | some (data, cachedAt) =>
      if now - cachedAt > STANDINGS_TTL_SECONDS then none else some data

/-- `get_cached_standings_fallback` (cache_service.py:456-474): the stored
payload regardless of age. -/
def getCachedStandingsFallback (st : Option (String × ℚ)) : Option String :=
  st.map Prod.fst

/-- `record_game_end_time` (cache_service.py:282-302): `SELECT` then
`INSERT` only when no row for `game_id` exists; an existing row is never
touched. -/
def recordGameEndTime (st : Store ℚ) (gameId : String) (now : ℚ) : Store ℚ :=
  match st gameId with
  | none => Function.update st gameId (some now)
  | some _ => st

/-- `CACHE_TTL = 300` seconds (routers/social.py:18). -/
def MEM_CACHE_TTL_SECONDS : ℚ := 300

/-- `get_from_mem_cache` (routers/social.py:21-26): rows of `_mem_cache` are
`(data, timestamp)`; a hit needs `now - timestamp < CACHE_TTL` (strict).
The dictionary itself is returned unchanged: the read never deletes. -/
def getFromMemCache (st : Store (String × ℚ)) (key : String) (now : ℚ) :
    Option String × Store (String × ℚ) :=
  (match st key with
   | some (d, ts) => if now - ts < MEM_CACHE_TTL_SECONDS then some d else none
   | none => none,
   st)

/-- `set_mem_cache` (routers/social.py:28-32): unconditional overwrite with
the current timestamp. -/
def setMemCache (st : Store (String × ℚ)) (key : String) (data : String)
    (now : ℚ) : Store (String × ℚ) :=
  Function.update st key (some (data, now))

/-- The mutable fields of `RateLimiter` (rate_limiter.py:11-37) together
with its configuration; time is in seconds. -/
structure RateLimiterState where
  maxTokens : ℚ
  tokensPerSecond : ℚ
  tokens : ℚ
  lastRefill : ℚ
deriving DecidableEq, Repr

/-- `RateLimiter.__init__` (rate_limiter.py:17-29) at wall-clock time `t0`:
the bucket starts full. -/
def RateLimiterState.mk0 (maxTokens tokensPerSecond t0 : ℚ) : RateLimiterState :=
  { maxTokens := maxTokens, tokensPerSecond := tokensPerSecond,
    tokens := maxTokens, lastRefill := t0 }

/-- `RateLimiter._refill` (rate_limiter.py:31-37):
`tokens = min(max_tokens, tokens + elapsed * tokens_per_second)` and
`last_refill = now`. -/
def refill (s : RateLimiterState) (now : ℚ) : RateLimiterState :=
  { s with
    tokens := min s.maxTokens (s.tokens + (now - s.lastRefill) * s.tokensPerSecond)
    lastRefill := now }

/-- `RateLimiter.try_acquire` (rate_limiter.py:71-84): refill, then grant
(decrementing one token) iff at least one token is available. -/
def tryAcquire (s : RateLimiterState) (now : ℚ) : Bool × RateLimiterState :=
  let s' := refill s now
  if 1 ≤ s'.tokens then (true, { s' with tokens := s'.tokens - 1 })
  else (false, s')

/-- The loop of `RateLimiter.acquire` (rate_limiter.py:39-69): iteration `i`
runs at wall-clock time `times i`; each iteration refills and grants when a
token is available, otherwise sleeps and retries.  `fuel` bounds the number
of iterations (the Python loop is bounded by the timeout); exhausting it is
the timeout's `return False`. -/
def acquireAux (times : ℕ → ℚ) : ℕ → ℕ → RateLimiterState → Bool × RateLimiterState
  | 0, _, s => (false, s)
  | fuel + 1, i, s =>
      let s' := refill s (times i)
      if 1 ≤ s'.tokens then (true, { s' with tokens := s'.tokens - 1 })
      else acquireAux times fuel (i + 1) s'

/-- `RateLimiter.acquire`, started at the state `s` with its iterations
clocked by `times`. -/
def acquire (s : RateLimiterState) (times : ℕ → ℚ) (fuel : ℕ) :
    Bool × RateLimiterState :=
  acquireAux times fuel 0 s

/-- `reddit_limiter = RateLimiter(max_tokens=5, tokens_per_second=0.167)`
(rate_limiter.py:89), created at time 0. -/
def redditLimiter0 : RateLimiterState := RateLimiterState.mk0 5 (167 / 1000) 0

/-- The C3 scenario: `n + 1` consecutive `try_acquire` calls on the fresh
reddit limiter, all at time 0. -/
def c3Seq : ℕ → Bool × RateLimiterState
  | 0 => tryAcquire redditLimiter0 0
  | n + 1 => tryAcquire (c3Seq n).2 0

/-- The token-count invariant of C10: `0 ≤ tokens ≤ max_tokens`. -/
def TokensInv (s : RateLimiterState) : Prop :=
  0 ≤ s.tokens ∧ s.tokens ≤ s.maxTokens

/-- Outcome of one upstream call inside `_request_with_retry`
(reddit_service.py:41-63): HTTP 200, HTTP 429, another error status, or a
raised exception (network error / timeout). -/
inductive UpstreamResult where
  | success
  | throttled
  | errorStatus (code : ℕ)
  | netError
deriving DecidableEq, Repr

/-- `MAX_RETRIES = 3` (reddit_service.py:18). -/
def MAX_RETRIES : ℕ := 3

/-- `INITIAL_BACKOFF = 1.0` seconds (reddit_service.py:19). -/
def INITIAL_BACKOFF : ℚ := 1

/-- The `for attempt in range(MAX_RETRIES)` loop of `_request_with_retry`
(reddit_service.py:33-66), with `remaining` attempts left, the current
attempt index, current backoff and cumulative seconds slept so far.
`upstream attempt` is what the `requests.get` of that attempt does;
`limiter attempt` is whether `reddit_limiter.acquire(timeout=30)` grants.
Returns the successful attempt's index (`some i` stands for returning that
attempt's response) or `none` (the function's `return None` paths), paired
with the total time slept in backoff. -/
def requestWithRetryAux (upstream : ℕ → UpstreamResult) (limiter : ℕ → Bool) :
    ℕ → ℕ → ℚ → ℚ → Option ℕ × ℚ
  | 0, _, _, slept => (none, slept)
  | remaining + 1, attempt, backoff, slept =>
      if limiter attempt = false then (none, slept)
      else
        match upstream attempt with
        | .success => (some attempt, slept)
        | .throttled =>
            requestWithRetryAux upstream limiter remaining (attempt + 1)
              (backoff * 2) (slept + backoff)
        | .errorStatus _ => (none, slept)
        | .netError =>
            if remaining = 0 then (none, slept)
            else
              requestWithRetryAux upstream limiter remaining (attempt + 1)
                (backoff * 2) (slept + backoff)

/-- `_request_with_retry` (reddit_service.py:22-66): up to 3 attempts,
backoff starting at 1 s. -/
def requestWithRetry (upstream : ℕ → UpstreamResult) (limiter : ℕ → Bool) :
    Option ℕ × ℚ :=
  requestWithRetryAux upstream limiter MAX_RETRIES 0 INITIAL_BACKOFF 0

/-- Maturity delay: `timedelta(hours=2)` (social_worker.py:81), in seconds. -/
def SOCIAL_MATURITY_SECONDS : ℚ := 2 * 3600

/-- `game.get('localDate') or game.get('gameTimeUTC', '').split('T')[0]`
(social_worker.py:89): a missing or empty `localDate` falls back to the
date part of `gameTimeUTC`. -/
def gameDateKey (g : Game) : String :=
  match g.localDate with
  | some d => if d = "" then (g.gameTimeUTC.splitOn "T").headD "" else d
  | none => (g.gameTimeUTC.splitOn "T").headD ""

/-- `f"heat_{team1}_{team2}_{game_date}"` with `team1` the away team and
`team2` the home team (social_worker.py:86-95). -/
def heatKey (g : Game) : String :=
  "heat_" ++ g.awayTeamName ++ "_" ++ g.homeTeamName ++ "_" ++ gameDateKey g

/-- `f"comments_{team1}_{team2}_{game_date}_{limit}"` with `limit = 5`
(social_worker.py:102-103). -/
def commentsKey (g : Game) : String :=
  "comments_" ++ g.awayTeamName ++ "_" ++ g.homeTeamName ++ "_" ++
    gameDateKey g ++ "_5"

/-- One iteration of the loop body of
`SocialPrefetchWorker._process_todays_games` (social_worker.py:61-107) for
one game: skip non-Final games and games without an id (a falsy id is
`none` here); record the end-time marker; skip while the 2-hour maturity
delay since the marker has not passed, or when no date key can be formed;
otherwise attempt a fetch-and-write for each of the heat and comments keys
that is absent from the durable social cache.  Returns the list of keys for
which a prefetch (fetch + cache write) is attempted, together with the
updated end-times table. -/
def processGame (social : Store String) (endTimes : Store ℚ) (now : ℚ)
    (g : Game) : List String × Store ℚ :=
  if g.gameStatus ≠ 3 then ([], endTimes)
  else
    match g.gameId with
    | none => ([], endTimes)
    | some gid =>
        let endTimes' := recordGameEndTime endTimes gid now
        match endTimes' gid with
        | none => ([], endTimes')
        | some endT =>
            if now < endT + SOCIAL_MATURITY_SECONDS then ([], endTimes')
            else if gameDateKey g = "" then ([], endTimes')
            else
              ((if social (heatKey g) = none then [heatKey g] else []) ++
               (if social (commentsKey g) = none then [commentsKey g] else []),
               endTimes')

/-- The read/fallback skeleton of `NBAService.get_games_by_date`
(nba_service.py:30-209): probe `games_cache`, then the TTL-checked
`schedule_cache`, then the live upstream.  A successful upstream fetch is
abstracted as the processed games list it produces (`some games`); any
exception in the fetch block is `none`, and the `except` handler returns
the empty list.  No other code runs on the failure path. -/
def getGamesByDate (gamesC : Store (List Game × ℚ))
    (schedC : Store (List Game × ℚ)) (date : String) (now : ℚ)
    (upstream : Option (List Game)) : List Game :=
  match gamesC date with
  | some (cached, _) => cached
  | none =>
      match getCachedSchedule schedC date now with
      | some cached => cached
      | none =>
          match upstream with
          | some games => games
          | none => []

/-- C1 counterexample: the empty batch has every game (vacuously) Final, yet
`cache_games` leaves the completed-events store untouched, so "stores the
batch iff every game in the batch is Final" fails at the empty batch. -/
theorem cacheGames_claim_fails_on_empty_batch :
    ([] : List Game).all isFinal = true ∧
    cacheGames "2024-01-01" [] 0 (Store.empty (α := List Game × ℚ)) =
      Store.empty (α := List Game × ℚ) ∧
    (Store.empty (α := List Game × ℚ)) "2024-01-01" = none :=
  ⟨rfl, rfl, rfl⟩

/-- C1 (amended): for a nonempty batch, `cache_games` stores the batch under
its date iff every game is Final; a batch containing a non-Final game, or an
empty batch, leaves the store unchanged, and other dates are never touched. -/
theorem cacheGames_durable_write_policy (date : String) (games : List Game)
    (now : ℚ) (st : Store (List Game × ℚ)) :
    (games ≠ [] → games.all isFinal = true →
      (cacheGames date games now st) date = some (games, now)) ∧
    (games.all isFinal = false → cacheGames date games now st = st) ∧
    (games = [] → cacheGames date games now st = st) ∧
    (∀ d, d ≠ date → (cacheGames date games now st) d = st d) := by
  refine ⟨?_, ?_, ?_, ?_⟩
  · intro hne hall
    simp [cacheGames, List.isEmpty_iff, hne, hall, Function.update]
  · intro hnot
    rcases he : games.isEmpty with b | b
    · simp [cacheGames, he, hnot]
    · simp [cacheGames, he]
  · intro he
    simp [cacheGames, he]
  · intro d hd
    unfold cacheGames
    split
    · rfl
    · split
      · simp [Function.update, hd]
      · rfl

/-- C1 witness: a singleton Final batch is stored; adding a Live game to it
blocks the write. -/
theorem cacheGames_durable_write_policy_witness :
    (cacheGames "2024-01-01"
        [⟨some "0022400001", 3, "Lakers", "Celtics", some "2024-01-01", "2024-01-01T00:00:00Z"⟩]
        0 (Store.empty (α := List Game × ℚ))) "2024-01-01" =
      some ([⟨some "0022400001", 3, "Lakers", "Celtics", some "2024-01-01", "2024-01-01T00:00:00Z"⟩], 0) ∧
    cacheGames "2024-01-01"
        [⟨some "0022400001", 3, "Lakers", "Celtics", some "2024-01-01", "2024-01-01T00:00:00Z"⟩,
         ⟨some "0022400002", 2, "Heat", "Knicks", some "2024-01-01", "2024-01-01T00:00:00Z"⟩]
        0 (Store.empty (α := List Game × ℚ)) = Store.empty :=
  ⟨(cacheGames_durable_write_policy "2024-01-01"
      [⟨some "0022400001", 3, "Lakers", "Celtics", some "2024-01-01", "2024-01-01T00:00:00Z"⟩]
      0 Store.empty).1 (by decide) (by decide),
   (cacheGames_durable_write_policy "2024-01-01"
      [⟨some "0022400001", 3, "Lakers", "Celtics", some "2024-01-01", "2024-01-01T00:00:00Z"⟩,
       ⟨some "0022400002", 2, "Heat", "Knicks", some "2024-01-01", "2024-01-01T00:00:00Z"⟩]
      0 Store.empty).2.1 (by decide)⟩

/-- C2: for a schedule row written at `w` and a standings row written at
`w2`, a regular read strictly past the horizon (24 h for schedules, 6 h for
standings) misses, a regular read strictly within the horizon returns the
stored payload, and the stale-tolerant fallback read returns the stored
payload unconditionally. -/
theorem durable_horizon_reads
    (schedSt : Store (List Game × ℚ)) (date : String) (games : List Game)
    (standSt : Option (String × ℚ)) (sdata : String) (w w2 now now2 : ℚ)
    (hs : schedSt date = some (games, w)) (ht : standSt = some (sdata, w2)) :
    (now - w > SCHEDULE_TTL_SECONDS → getCachedSchedule schedSt date now = none) ∧
    (now - w < SCHEDULE_TTL_SECONDS → getCachedSchedule schedSt date now = some games) ∧
    getCachedScheduleFallback schedSt date = some games ∧
    (now2 - w2 > STANDINGS_TTL_SECONDS → getCachedStandings standSt now2 = none) ∧
    (now2 - w2 < STANDINGS_TTL_SECONDS → getCachedStandings standSt now2 = some sdata) ∧
    getCachedStandingsFallback standSt = some sdata := by
  refine ⟨?_, ?_, ?_, ?_, ?_, ?_⟩
  · intro h; simp [getCachedSchedule, hs, h]
  · intro h; simp [getCachedSchedule, hs, not_lt.mpr (le_of_lt h)]
  · simp [getCachedScheduleFallback, hs]
  · intro h; simp [getCachedStandings, ht, h]
  · intro h; simp [getCachedStandings, ht, not_lt.mpr (le_of_lt h)]
  · simp [getCachedStandingsFallback, ht]

/-- C2 witness: a schedule row written at 0 misses at 25 h and hits at 23 h;
a standings row written at 0 misses at 7 h and hits at 5 h; both fallback
reads hit. -/
theorem durable_horizon_reads_witness :
    getCachedSchedule (Function.update Store.empty "2024-01-01" (some ([], 0)))
      "2024-01-01" (25 * 3600) = none ∧
    getCachedSchedule (Function.update Store.empty "2024-01-01" (some ([], 0)))
      "2024-01-01" (23 * 3600) = some [] ∧
    getCachedScheduleFallback
      (Function.update Store.empty "2024-01-01" (some ([], 0))) "2024-01-01" = some [] ∧
    getCachedStandings (some ("payload", 0)) (7 * 3600) = none ∧
    getCachedStandings (some ("payload", 0)) (5 * 3600) = some "payload" ∧
    getCachedStandingsFallback (some ("payload", 0)) = some "payload" := by
  have h := durable_horizon_reads
    (Function.update Store.empty "2024-01-01" (some ([], 0))) "2024-01-01" []
    (some ("payload", 0)) "payload" 0 0 (25 * 3600) (7 * 3600)
    (by simp [Function.update]) rfl
  have h' := durable_horizon_reads
    (Function.update Store.empty "2024-01-01" (some ([], 0))) "2024-01-01" []
    (some ("payload", 0)) "payload" 0 0 (23 * 3600) (5 * 3600)
    (by simp [Function.update]) rfl
  exact ⟨h.1 (by norm_num [SCHEDULE_TTL_SECONDS]),
         h'.2.1 (by norm_num [SCHEDULE_TTL_SECONDS]),
         h.2.2.1,
         h.2.2.2.1 (by norm_num [STANDINGS_TTL_SECONDS]),
         h'.2.2.2.2.1 (by norm_num [STANDINGS_TTL_SECONDS]),
         h.2.2.2.2.2⟩

/-- C6: `record_game_end_time` inserts the current timestamp for an absent
game id and leaves everything else alone; for a present id the whole table
(and in particular the stored timestamp) is unchanged, so the marker is
never overwritten. -/
theorem recordGameEndTime_write_once (st : Store ℚ) (gameId : String) (now : ℚ) :
    (st gameId = none → (recordGameEndTime st gameId now) gameId = some now) ∧
    (∀ k, k ≠ gameId → (recordGameEndTime st gameId now) k = st k) ∧
    (∀ t, st gameId = some t → recordGameEndTime st gameId now = st) ∧
    (∀ t now', st gameId = some t →
      (recordGameEndTime st gameId now') gameId = some t) := by
  refine ⟨?_, ?_, ?_, ?_⟩
  · intro h; simp [recordGameEndTime, h, Function.update]
  · intro k hk
    unfold recordGameEndTime
    cases st gameId with
    | none => simp [Function.update, hk]
    | some t => rfl
  · intro t h; simp [recordGameEndTime, h]
  · intro t now' h; simp [recordGameEndTime, h]

/-- C6 witness: the first call stores the timestamp 10; a second call at
time 99 leaves the stored timestamp 10 in place. -/
theorem recordGameEndTime_write_once_witness :
    (recordGameEndTime Store.empty "0022400001" 10) "0022400001" = some 10 ∧
    (recordGameEndTime (recordGameEndTime Store.empty "0022400001" 10)
        "0022400001" 99) "0022400001" = some 10 := by
  have h1 := (recordGameEndTime_write_once Store.empty "0022400001" 10).1 rfl
  refine ⟨h1, ?_⟩
  exact (recordGameEndTime_write_once
    (recordGameEndTime Store.empty "0022400001" 10) "0022400001" 99).2.2.2 10 99 h1

/-- C9: an ephemeral-cache read of a stored entry returns the payload iff
the entry's age is strictly below the 300-second TTL, never mutates the
map (the expired entry stays in place), and a later `set_mem_cache`
overwrites the entry with a fresh timestamp. -/
theorem memCache_ttl_read (st : Store (String × ℚ)) (key d : String) (ts now : ℚ)
    (h : st key = some (d, ts)) :
    ((getFromMemCache st key now).1 = some d ↔ now - ts < MEM_CACHE_TTL_SECONDS) ∧
    (getFromMemCache st key now).2 = st ∧
    (∀ d' now', setMemCache st key d' now' key = some (d', now')) := by
  refine ⟨?_, rfl, ?_⟩
  · constructor
    · intro hget
      by_contra hage
      simp [getFromMemCache, h, hage] at hget
    · intro hage
      simp [getFromMemCache, h, hage]
  · intro d' now'
    simp [setMemCache, Function.update]

/-- C9 witness: an entry stored at time 0 is returned at age 299, missed at
age 300 while remaining in the map, and overwriting it succeeds. -/
theorem memCache_ttl_read_witness :
    (getFromMemCache (setMemCache Store.empty "heat_Lakers_Celtics" "hot" 0)
        "heat_Lakers_Celtics" 299).1 = some "hot" ∧
    (getFromMemCache (setMemCache Store.empty "heat_Lakers_Celtics" "hot" 0)
        "heat_Lakers_Celtics" 300).1 = none ∧
    (getFromMemCache (setMemCache Store.empty "heat_Lakers_Celtics" "hot" 0)
        "heat_Lakers_Celtics" 300).2 "heat_Lakers_Celtics" = some ("hot", 0) := by
  have hmem : (setMemCache Store.empty "heat_Lakers_Celtics" "hot" 0)
      "heat_Lakers_Celtics" = some ("hot", 0) := by
    simp [setMemCache, Function.update]
  have h299 := memCache_ttl_read
    (setMemCache Store.empty "heat_Lakers_Celtics" "hot" 0)
    "heat_Lakers_Celtics" "hot" 0 299 hmem
  have h300 := memCache_ttl_read
    (setMemCache Store.empty "heat_Lakers_Celtics" "hot" 0)
    "heat_Lakers_Celtics" "hot" 0 300 hmem
  refine ⟨h299.1.mpr (by norm_num [MEM_CACHE_TTL_SECONDS]), ?_, ?_⟩
  · rcases hv : (getFromMemCache (setMemCache Store.empty "heat_Lakers_Celtics" "hot" 0)
        "heat_Lakers_Celtics" 300).1 with _ | v
    · rfl
    · have : v = "hot" := by
        have := hv
        simp [getFromMemCache, hmem] at this
        norm_num [MEM_CACHE_TTL_SECONDS] at this
      subst this
      have := h300.1.mp hv
      norm_num [MEM_CACHE_TTL_SECONDS] at this
  · rw [h300.2.1]; exact hmem

/-- Refilling preserves the configuration fields and the token invariant
whenever time has not gone backwards. -/
theorem refill_preserves_inv (s : RateLimiterState) (now : ℚ)
    (hcap : 0 ≤ s.maxTokens) (hrate : 0 ≤ s.tokensPerSecond)
    (hinv : TokensInv s) (hnow : s.lastRefill ≤ now) :
    TokensInv (refill s now) ∧ (refill s now).maxTokens = s.maxTokens ∧
    (refill s now).tokensPerSecond = s.tokensPerSecond ∧
    (refill s now).lastRefill = now := by
  refine ⟨⟨?_, ?_⟩, rfl, rfl, rfl⟩
  · exact le_min hcap
      (add_nonneg hinv.1 (mul_nonneg (by linarith) hrate))
  · exact min_le_left _ _

/-- Granting after a refill decrements an available token and so keeps the
token invariant. -/
theorem grant_preserves_inv (s : RateLimiterState)
    (hinv : TokensInv s) (h1 : 1 ≤ s.tokens) :
    TokensInv { s with tokens := s.tokens - 1 } :=
  ⟨by simpa using h1, by have := hinv.2; simp; linarith⟩

/-- The blocking-acquire loop preserves the token invariant and the bucket
capacity, provided its iteration clock is monotone and starts no earlier
than the limiter's last refill. -/
theorem acquireAux_preserves_inv (times : ℕ → ℚ) (hmono : Monotone times) :
    ∀ (fuel i : ℕ) (s : RateLimiterState), 0 ≤ s.maxTokens →
      0 ≤ s.tokensPerSecond → TokensInv s → s.lastRefill ≤ times i →
      TokensInv (acquireAux times fuel i s).2 ∧
      (acquireAux times fuel i s).2.maxTokens = s.maxTokens := by
  intro fuel
  induction fuel with
  | zero => intro i s _ _ hinv _; exact ⟨hinv, rfl⟩
  | succ n ih =>
      intro i s hcap hrate hinv ht
      have href := refill_preserves_inv s (times i) hcap hrate hinv ht
      by_cases h1 : 1 ≤ (refill s (times i)).tokens
      · simp only [acquireAux, h1, if_true]
        exact ⟨grant_preserves_inv _ href.1 h1, href.2.1⟩
      · simp only [acquireAux, h1, if_false]
        have hnext : (refill s (times i)).lastRefill ≤ times (i + 1) := by
          rw [href.2.2.2]; exact hmono (Nat.le_succ i)
        have := ih (i + 1) (refill s (times i))
          (by rw [href.2.1]; exact hcap)
          (by rw [href.2.2.1]; exact hrate) href.1 hnext
        exact ⟨this.1, by rw [this.2, href.2.1]⟩

/-- C10: starting from a limiter state with non-negative capacity, positive
refill rate, `0 ≤ tokens ≤ max_tokens`, and a clock that has not gone
backwards, both `try_acquire` and the `acquire` loop leave
`0 ≤ tokens ≤ max_tokens` intact (with the capacity untouched); the refill
never raises tokens above the capacity, and the decrement by one happens
exactly when the replenished count is at least 1. -/
theorem rateLimiter_tokens_invariant (s : RateLimiterState) (now : ℚ)
    (hcap : 0 ≤ s.maxTokens) (hrate : 0 < s.tokensPerSecond)
    (hinv : TokensInv s) (hnow : s.lastRefill ≤ now) :
    (TokensInv (tryAcquire s now).2 ∧ (tryAcquire s now).2.maxTokens = s.maxTokens) ∧
    (∀ (times : ℕ → ℚ) (fuel i : ℕ), Monotone times → s.lastRefill ≤ times i →
      TokensInv (acquireAux times fuel i s).2 ∧
      (acquireAux times fuel i s).2.maxTokens = s.maxTokens) ∧
    (refill s now).tokens ≤ s.maxTokens ∧
    (1 ≤ (refill s now).tokens →
      (tryAcquire s now).2.tokens = (refill s now).tokens - 1) ∧
    (¬ 1 ≤ (refill s now).tokens →
      (tryAcquire s now).2.tokens = (refill s now).tokens) := by
  have href := refill_preserves_inv s now hcap (le_of_lt hrate) hinv hnow
  refine ⟨?_, ?_, href.1.2, ?_, ?_⟩
  · by_cases h1 : 1 ≤ (refill s now).tokens
    · simp only [tryAcquire, h1, if_true]
      exact ⟨grant_preserves_inv _ href.1 h1, href.2.1⟩
    · simp only [tryAcquire, h1, if_false]
      exact ⟨href.1, href.2.1⟩
  · intro times fuel i hmono ht
    exact acquireAux_preserves_inv times hmono fuel i s hcap (le_of_lt hrate) hinv ht
  · intro h1; simp only [tryAcquire, h1, if_true]
  · intro h1; simp only [tryAcquire, h1, if_false]

set_option maxRecDepth 4000

/-- C3: on the fresh reddit limiter (capacity 5, rate 0.167/s) five
immediate `try_acquire` calls are granted, a sixth immediately after is
not, and an `acquire` 6 seconds later is granted; moreover every attempt
first replenishes to `min(capacity, tokens + elapsed * rate)`, grants iff
the replenished count is at least 1, and a grant decrements exactly one
token. -/
theorem rateLimiter_burst_refill :
    ((c3Seq 0).1 = true ∧ (c3Seq 1).1 = true ∧ (c3Seq 2).1 = true ∧
     (c3Seq 3).1 = true ∧ (c3Seq 4).1 = true) ∧
    (c3Seq 5).1 = false ∧
    (acquire (c3Seq 5).2 (fun _ => 6) 31).1 = true ∧
    (∀ (s : RateLimiterState) (now : ℚ),
      (refill s now).tokens =
        min s.maxTokens (s.tokens + (now - s.lastRefill) * s.tokensPerSecond)) ∧
    (∀ (s : RateLimiterState) (now : ℚ),
      ((tryAcquire s now).1 = true ↔ 1 ≤ (refill s now).tokens)) ∧
    (∀ (s : RateLimiterState) (now : ℚ), 1 ≤ (refill s now).tokens →
      (tryAcquire s now).2.tokens = (refill s now).tokens - 1) := by
  have h5 : c3Seq 5 = (false, ⟨5, 167 / 1000, 0, 0⟩) := by
    norm_num [c3Seq, tryAcquire, refill, redditLimiter0, RateLimiterState.mk0]
  refine ⟨⟨?_, ?_, ?_, ?_, ?_⟩, ?_, ?_, ?_, ?_, ?_⟩
  · norm_num [c3Seq, tryAcquire, refill, redditLimiter0, RateLimiterState.mk0]
  · norm_num [c3Seq, tryAcquire, refill, redditLimiter0, RateLimiterState.mk0]
  · norm_num [c3Seq, tryAcquire, refill, redditLimiter0, RateLimiterState.mk0]
  · norm_num [c3Seq, tryAcquire, refill, redditLimiter0, RateLimiterState.mk0]
  · norm_num [c3Seq, tryAcquire, refill, redditLimiter0, RateLimiterState.mk0]
  · rw [h5]
  · rw [h5]
    norm_num [acquire, acquireAux, refill]
  · intro s now; rfl
  · intro s now
    by_cases h : 1 ≤ (refill s now).tokens <;> simp [tryAcquire, h]
  · intro s now h
    simp [tryAcquire, h]

/-- C3 witness: the per-attempt grant condition instantiated on the fresh
reddit limiter at time 0 yields a grant. -/
theorem rateLimiter_burst_refill_witness :
    (tryAcquire redditLimiter0 0).1 = true :=
  (rateLimiter_burst_refill.2.2.2.2.1 redditLimiter0 0).mpr
    (by norm_num [refill, redditLimiter0, RateLimiterState.mk0])

/-- C4: with the rate limiter granting every attempt, throttling responses
on attempts 1 and 2 followed by success on attempt 3 make the client return
the attempt-3 response after exactly 1 + 2 = 3 seconds of cumulative
backoff sleep; throttling on all three attempts makes it return no
response. -/
theorem retry_throttle_scenarios :
    requestWithRetry (fun i => if i < 2 then .throttled else .success)
      (fun _ => true) = (some 2, 3) ∧
    requestWithRetry (fun _ => .throttled) (fun _ => true) = (none, 7) := by
  constructor
  · norm_num [requestWithRetry, requestWithRetryAux, MAX_RETRIES, INITIAL_BACKOFF]
  · norm_num [requestWithRetry, requestWithRetryAux, MAX_RETRIES, INITIAL_BACKOFF]

/-- C5 counterexample: a non-throttling error status (500) on the very
first attempt — not the final one — makes the client return no response
immediately, with no backoff sleep and no retry, even though the next
attempt would have succeeded; the claim instead requires a sleep-and-retry
(which would have returned attempt 2's response). -/
theorem retry_errorStatus_counterexample :
    requestWithRetry (fun i => if i = 0 then .errorStatus 500 else .success)
      (fun _ => true) = (none, 0) := by
  norm_num [requestWithRetry, requestWithRetryAux, MAX_RETRIES, INITIAL_BACKOFF]

/-- C5 (amended): a network error on a non-final attempt makes the client
sleep the current backoff and retry; a network error on the final attempt
reports failure with no further sleep; but a non-throttling error status
aborts immediately with failure at ANY attempt — whatever attempt index,
backoff and accumulated sleep the loop has reached — without sleeping or
retrying.  Stated both as laws over an arbitrary loop state
(`requestWithRetryAux` at any remaining-attempt count) and as end-to-end
runs of `requestWithRetry` hitting the error status on attempts 1, 2
and 3. -/
theorem retry_non_throttle_failures (up : ℕ → UpstreamResult)
    (lim : ℕ → Bool) (c : ℕ) :
    (∀ (r attempt : ℕ) (backoff slept : ℚ),
      lim attempt = true → up attempt = .netError →
      requestWithRetryAux up lim (r + 2) attempt backoff slept =
        requestWithRetryAux up lim (r + 1) (attempt + 1) (backoff * 2)
          (slept + backoff)) ∧
    (∀ (attempt : ℕ) (backoff slept : ℚ),
      lim attempt = true → up attempt = .netError →
      requestWithRetryAux up lim 1 attempt backoff slept = (none, slept)) ∧
    (∀ (r attempt : ℕ) (backoff slept : ℚ),
      lim attempt = true → up attempt = .errorStatus c →
      requestWithRetryAux up lim (r + 1) attempt backoff slept = (none, slept)) ∧
    (lim 0 = true → up 0 = .netError → lim 1 = true → up 1 = .success →
      requestWithRetry up lim = (some 1, 1)) ∧
    (lim 0 = true → up 0 = .errorStatus c →
      requestWithRetry up lim = (none, 0)) ∧
    (lim 0 = true → up 0 = .throttled → lim 1 = true → up 1 = .errorStatus c →
      requestWithRetry up lim = (none, 1)) ∧
    (lim 0 = true → up 0 = .throttled → lim 1 = true → up 1 = .throttled →
      lim 2 = true → up 2 = .errorStatus c →
      requestWithRetry up lim = (none, 3)) ∧
    ((∀ i, lim i = true) → (∀ i, up i = .netError) →
      requestWithRetry up lim = (none, 3)) := by
  refine ⟨?_, ?_, ?_, ?_, ?_, ?_, ?_, ?_⟩
  · intro r attempt backoff slept h hu
    simp [requestWithRetryAux, h, hu]
  · intro attempt backoff slept h hu
    simp [requestWithRetryAux, h, hu]
  · intro r attempt backoff slept h hu
    simp [requestWithRetryAux, h, hu]
  · intro h0 hu0 h1 hu1
    norm_num [requestWithRetry, requestWithRetryAux, MAX_RETRIES,
      INITIAL_BACKOFF, h0, hu0, h1, hu1]
  · intro h0 hu0
    norm_num [requestWithRetry, requestWithRetryAux, MAX_RETRIES,
      INITIAL_BACKOFF, h0, hu0]
  · intro h0 hu0 h1 hu1
    norm_num [requestWithRetry, requestWithRetryAux, MAX_RETRIES,
      INITIAL_BACKOFF, h0, hu0, h1, hu1]
  · intro h0 hu0 h1 hu1 h2 hu2
    norm_num [requestWithRetry, requestWithRetryAux, MAX_RETRIES,
      INITIAL_BACKOFF, h0, hu0, h1, hu1, h2, hu2]
  · intro hl hu
    norm_num [requestWithRetry, requestWithRetryAux, MAX_RETRIES,
      INITIAL_BACKOFF, hl, hu]

/-- C5 witness: a network error on attempt 1 followed by success on attempt
2 returns attempt 2's response after the 1-second backoff sleep; a 429 on
attempt 1 followed by a 500 on attempt 2 fails right there, with only the
1-second sleep the throttle caused. -/
theorem retry_non_throttle_failures_witness :
    requestWithRetry (fun i => if i = 0 then .netError else .success)
      (fun _ => true) = (some 1, 1) ∧
    requestWithRetry (fun i => if i = 0 then .throttled else .errorStatus 500)
      (fun _ => true) = (none, 1) :=
  ⟨(retry_non_throttle_failures (fun i => if i = 0 then .netError else .success)
      (fun _ => true) 0).2.2.2.1 rfl rfl rfl rfl,
   (retry_non_throttle_failures
      (fun i => if i = 0 then .throttled else .errorStatus 500)
      (fun _ => true) 500).2.2.2.2.2.1 rfl rfl rfl rfl⟩

/-- C7: for a Final game in a prefetch cycle, no prefetch (hence no social
cache write) is attempted while `now` is before the recorded end-time
marker plus 2 hours — in particular never in the cycle that records the
marker — and once the delay has passed, a fetch-and-write is attempted for
the heat key and for the comments key exactly when that key is absent from
the durable social cache. -/
theorem social_worker_maturity_gate (social : Store String)
    (endTimes : Store ℚ) (now : ℚ) (g : Game) (gid : String)
    (hstatus : g.gameStatus = 3) (hid : g.gameId = some gid) :
    (∀ endT, (recordGameEndTime endTimes gid now) gid = some endT →
      now < endT + SOCIAL_MATURITY_SECONDS →
      (processGame social endTimes now g).1 = []) ∧
    (∀ endT, endTimes gid = some endT →
      endT + SOCIAL_MATURITY_SECONDS ≤ now → gameDateKey g ≠ "" →
      ((heatKey g ∈ (processGame social endTimes now g).1 ↔
          social (heatKey g) = none) ∧
       (commentsKey g ∈ (processGame social endTimes now g).1 ↔
          social (commentsKey g) = none))) := by
  constructor
  · intro endT hrec hlt
    simp only [processGame, hid, hstatus]
    norm_num
    rw [hrec]
    simp [hlt]
  · intro endT hmark hle hdate
    have hrec : recordGameEndTime endTimes gid now = endTimes := by
      simp [recordGameEndTime, hmark]
    have hres : (processGame social endTimes now g).1 =
        (if social (heatKey g) = none then [heatKey g] else []) ++
        (if social (commentsKey g) = none then [commentsKey g] else []) := by
      simp only [processGame, hid, hstatus]
      norm_num
      rw [hrec, hmark]
      simp [not_lt.mpr hle, hdate]
    rw [hres]
    by_cases h1 : social (heatKey g) = none <;>
      by_cases h2 : social (commentsKey g) = none
    · simp [h1, h2]
    · have hne : commentsKey g ≠ heatKey g := fun he => h2 (he ▸ h1)
      simp [h1, h2, hne]
    · have hne : heatKey g ≠ commentsKey g := fun he => h1 (he ▸ h2)
      simp [h1, h2, hne]
    · simp [h1, h2]

/-- C7 witness: a Final game whose marker was recorded at time 0 triggers
no prefetch at 30 minutes, and at exactly 2 hours it triggers a prefetch of
both keys against an empty social cache. -/
theorem social_worker_maturity_gate_witness :
    (processGame Store.empty
      (Function.update Store.empty "0022400001" (some 0)) 1800
      ⟨some "0022400001", 3, "Lakers", "Celtics", some "2024-01-01", "2024-01-01T00:00:00Z"⟩).1 = [] ∧
    (heatKey ⟨some "0022400001", 3, "Lakers", "Celtics", some "2024-01-01", "2024-01-01T00:00:00Z"⟩ ∈
      (processGame Store.empty
        (Function.update Store.empty "0022400001" (some 0)) 7200
        ⟨some "0022400001", 3, "Lakers", "Celtics", some "2024-01-01", "2024-01-01T00:00:00Z"⟩).1) := by
  have hmark : (Function.update (Store.empty (α := ℚ)) "0022400001" (some 0))
      "0022400001" = some (0 : ℚ) := by simp [Function.update]
  have h1 := social_worker_maturity_gate Store.empty
    (Function.update Store.empty "0022400001" (some 0)) 1800
    ⟨some "0022400001", 3, "Lakers", "Celtics", some "2024-01-01", "2024-01-01T00:00:00Z"⟩
    "0022400001" rfl rfl
  have h2 := social_worker_maturity_gate Store.empty
    (Function.update Store.empty "0022400001" (some 0)) 7200
    ⟨some "0022400001", 3, "Lakers", "Celtics", some "2024-01-01", "2024-01-01T00:00:00Z"⟩
    "0022400001" rfl rfl
  constructor
  · refine h1.1 0 ?_ ?_
    · simp [recordGameEndTime, hmark]
    · norm_num [SOCIAL_MATURITY_SECONDS]
  · refine ((h2.2 0 hmark (by norm_num [SOCIAL_MATURITY_SECONDS])
      (by simp [gameDateKey])).1).mpr rfl

/-- C8: with a stale schedule row present (written roughly 55 hours before
the read) and the upstream fetch failing, `get_games_by_date` returns the
empty list from its exception handler even though the stale-tolerant
fallback read (`get_cached_schedule_fallback`, which no code in the
repository calls) holds the payload — the promised fallback never
happens. -/
theorem schedule_fallback_never_consulted :
    getGamesByDate Store.empty
      (Function.update Store.empty "2024-01-01"
        (some ([⟨some "0022400010", 1, "Suns", "Mavericks", some "2024-01-01", "2024-01-01T00:00:00Z"⟩], 0)))
      "2024-01-01" 200000 none = [] ∧
    getCachedScheduleFallback
      (Function.update Store.empty "2024-01-01"
        (some ([⟨some "0022400010", 1, "Suns", "Mavericks", some "2024-01-01", "2024-01-01T00:00:00Z"⟩], 0)))
      "2024-01-01" =
      some [⟨some "0022400010", 1, "Suns", "Mavericks", some "2024-01-01", "2024-01-01T00:00:00Z"⟩] := by
  constructor
  · simp only [getGamesByDate, getCachedSchedule, Store.empty, Function.update]
    norm_num [SCHEDULE_TTL_SECONDS]
  · simp [getCachedScheduleFallback, Function.update]

/-- C10 witness: the invariant holds after a `try_acquire` on the fresh
reddit limiter one second in. -/
theorem rateLimiter_tokens_invariant_witness :
    TokensInv (tryAcquire redditLimiter0 1).2 :=
  ((rateLimiter_tokens_invariant redditLimiter0 1
      (by norm_num [redditLimiter0, RateLimiterState.mk0])
      (by norm_num [redditLimiter0, RateLimiterState.mk0])
      (by constructor <;> norm_num [TokensInv, redditLimiter0, RateLimiterState.mk0])
      (by norm_num [redditLimiter0, RateLimiterState.mk0])).1).1

end NbaTui
